import Mathlib

/-!
Verification development for src/indra/newview/exoflickrauth.cpp.

The file embeds the Flickr OAuth handshake driver (`exoFlickrAuth`) as an
explicit event-driven state machine.  One Lean function corresponds to each
C++ member function; the asynchronous completions (HTTP responses and dialog
choices) are modelled as an `Event` type dispatched by `step`.  Every
externally observable side effect (callback invocation, settings-store write,
HTTP request, notification, browser spawn, clearing of the flight flag) is
recorded in order in a trace.
-/

/-- LLSD values restricted to the string-map shape this file uses: an
association list from keys to strings. -/
abbrev LLSD : Type := List (String × String)

/-- Lookup mirroring `response["key"].asString()`: the value of the first
binding of the key, and the empty string when the key is absent. -/
def LLSD.getString (d : LLSD) (k : String) : String :=
  match d with
  | [] => ""
  | (k2, v) :: rest => if k2 = k then v else LLSD.getString rest k

/-- Value of a hexadecimal digit character, if it is one. -/
def hexVal (c : Char) : Option Nat :=
  if '0' ≤ c ∧ c ≤ '9' then some (c.toNat - 48)
  else if 'a' ≤ c ∧ c ≤ 'f' then some (c.toNat - 87)
  else if 'A' ≤ c ∧ c ≤ 'F' then some (c.toNat - 55)
  else none

/-- Modelled from the spec: URL decoding used by `LLURI::queryMap`, whose
source is not part of this fragment.  Per the spec (section 6 and the
access-token example where `fullname=Jane+Doe` decodes to the string
"Jane Doe"), a plus sign decodes to a space and a percent escape decodes to
the byte named by its two hex digits. -/
def urlUnescape : List Char → List Char
  | [] => []
  | '+' :: rest => ' ' :: urlUnescape rest
  | '%' :: c1 :: c2 :: rest2 =>
    match hexVal c1, hexVal c2 with
    | some a, some b => Char.ofNat (16 * a + b) :: urlUnescape rest2
    | _, _ => '%' :: c1 :: c2 :: urlUnescape rest2
  | c :: rest => c :: urlUnescape rest

/-- Split a character list on a separator character. -/
def splitListOn (c : Char) : List Char → List (List Char)
  | [] => [[]]
  | ch :: rest =>
    let r := splitListOn c rest
    if ch = c then [] :: r
    else
      match r with
      | [] => [[ch]]
      | h :: t => (ch :: h) :: t

/-- Parse one `key=value` tuple of a query string; an empty tuple is
dropped, and a tuple without an equals sign yields an empty value. -/
def parsePiece (piece : List Char) : Option (String × String) :=
  if piece = [] then none
  else
    let k := piece.takeWhile (fun ch => ch ≠ '=')
    let v := (piece.dropWhile (fun ch => ch ≠ '=')).drop 1
    some (String.mk (urlUnescape k), String.mk (urlUnescape v))

/-- Modelled from the spec: `LLURI::queryMap`, whose source is not part of
this fragment.  Per the spec it parses a raw response body as URL-encoded
key/value pairs separated by ampersands. -/
def LLURI.queryMap (s : String) : LLSD :=
  (splitListOn '&' s.toList).filterMap parsePiece

/-- Transport-level status of a completed HTTP exchange, as seen through
`LLCore::HttpStatus::getType`: an HTTP status code for a delivered response,
or a connection error. -/
inductive HttpStatusType : Type
  | httpCode (code : Nat)
  | connectionError
deriving DecidableEq

/-- Modelled from the spec and the standard constant table outside this
fragment: the comparison `status.getType() == HTTP_OK`, where `HTTP_OK` is
the HTTP 200 OK status code; a connection error never compares equal. -/
def HttpStatusType.isHTTPOk : HttpStatusType → Bool
  | HttpStatusType.httpCode c => c == 200
  | HttpStatusType.connectionError => false

/-- Embedding of the free function `exoFlickrAuthResponse` (lines 36 to 47):
it classifies the exchange as successful exactly when the status equals
`HTTP_OK`, parses the raw body as a query-string map, and hands both to the
continuation.  Here it returns the pair passed to that continuation. -/
def exoFlickrAuthResponse (status : HttpStatusType) (rawBody : String) :
    Bool × LLSD :=
  (status.isHTTPOk, LLURI.queryMap rawBody)

/-- The five per-account settings fields this file reads and writes. -/
structure Store : Type where
  token : String
  tokenSecret : String
  fullName : String
  nsid : String
  username : String
deriving DecidableEq

/-- Modelled from the spec: the external settings store read interface
(`gSavedPerAccountSettings.getString`), keyed by the five names used in the
source. -/
def Store.getString (st : Store) (k : String) : String :=
  if k = "ExodusFlickrToken" then st.token
  else if k = "ExodusFlickrTokenSecret" then st.tokenSecret
  else if k = "ExodusFlickrFullName" then st.fullName
  else if k = "ExodusFlickrNSID" then st.nsid
  else if k = "ExodusFlickrUsername" then st.username
  else ""

/-- Modelled from the spec: the external settings store write interface
(`gSavedPerAccountSettings.setString`). -/
def Store.setString (st : Store) (k v : String) : Store :=
  if k = "ExodusFlickrToken" then { st with token := v }
  else if k = "ExodusFlickrTokenSecret" then { st with tokenSecret := v }
  else if k = "ExodusFlickrFullName" then { st with fullName := v }
  else if k = "ExodusFlickrNSID" then { st with nsid := v }
  else if k = "ExodusFlickrUsername" then { st with username := v }
  else st

/-- Control position of one attempt: which completion the object is waiting
for, or that it has been destroyed (with its outcome). -/
inductive Phase : Type
  | validating
  | awaitingExplanation
  | awaitingRequestToken
  | awaitingVerifier
  | awaitingAccessToken
  | terminal (success : Bool)
deriving DecidableEq

/-- Whether a phase is terminal. -/
def Phase.isTerminal : Phase → Bool
  | Phase.terminal _ => true
  | _ => false

/-- Observable side effects of the attempt, recorded in program order. -/
inductive Act : Type
  | callbackInvoke (success : Bool) (payload : LLSD)
  | storeWrite (key value : String)
  | httpGet (url : String)
  | notify (template : String)
  | openBrowser (url : String)
  | clearFlight
deriving DecidableEq

/-- Recognise a callback invocation in the trace. -/
def isCallback : Act → Bool
  | Act.callbackInvoke _ _ => true
  | _ => false

/-- Recognise a clearing of the flight flag in the trace. -/
def isClear : Act → Bool
  | Act.clearFlight => true
  | _ => false

/-- Recognise a settings-store write in the trace. -/
def isWrite : Act → Bool
  | Act.storeWrite _ _ => true
  | _ => false

/-- Recognise an issued HTTP request in the trace. -/
def isHttp : Act → Bool
  | Act.httpGet _ => true
  | _ => false

/-- Number of callback invocations in a trace. -/
def countCallbacks (tr : List Act) : Nat := tr.countP isCallback

/-- Number of flight-flag clears in a trace. -/
def countClears (tr : List Act) : Nat := tr.countP isClear

/-- Number of settings-store writes in a trace. -/
def countWrites (tr : List Act) : Nat := tr.countP isWrite

/-- Number of HTTP requests issued in a trace. -/
def countHttp (tr : List Act) : Nat := tr.countP isHttp

/-- Joint state of one attempt together with the process-wide data it
touches: the settings store, the flight flag `sAuthorisationInProgress`, the
member `mAuthenticating`, the control phase, and the effect trace. -/
structure AuthState : Type where
  store : Store
  sAuthorisationInProgress : Bool
  mAuthenticating : Bool
  phase : Phase
  trace : List Act
deriving DecidableEq

/-- Append one observable action to the trace. -/
def AuthState.emit (s : AuthState) (a : Act) : AuthState :=
  { s with trace := s.trace ++ [a] }

/-- A `gSavedPerAccountSettings.setString` call made by the attempt: it
updates the store and is recorded in the trace. -/
def AuthState.setStr (s : AuthState) (k v : String) : AuthState :=
  { s with store := s.store.setString k v,
           trace := s.trace ++ [Act.storeWrite k v] }

namespace exoFlickrAuth

/-- Embedding of the destructor (lines 71 to 77): it clears the flight flag
exactly when this attempt set it (`mAuthenticating`). -/
def destruct (s : AuthState) : AuthState :=
  if s.mAuthenticating then
    { s with sAuthorisationInProgress := false,
             trace := s.trace ++ [Act.clearFlight] }
  else s

/-- Embedding of `delete this` tagged with the outcome of the attempt: the
phase becomes terminal and the destructor runs. -/
def deleteSelf (s : AuthState) (success : Bool) : AuthState :=
  destruct { s with phase := Phase.terminal success }

/-- Embedding of `beginAuthorisation` (lines 109 to 113): present the
explanatory consent prompt and wait for the choice. -/
def beginAuthorisation (s : AuthState) : AuthState :=
  { s.emit (Act.notify "ExodusFlickrVerificationExplanation") with
      phase := Phase.awaitingExplanation }

/-- Embedding of `checkAuthorisation` (lines 79 to 82): issue the
`flickr.test.login` validation probe and wait for its result. -/
def checkAuthorisation (s : AuthState) : AuthState :=
  { s.emit (Act.httpGet "flickr.test.login") with
      phase := Phase.validating }

/-- Embedding of `checkResult` (lines 84 to 106): on transport failure or a
body whose `stat` field is not "ok", re-run the authorisation flow;
otherwise report success with an empty payload and destroy the attempt. -/
def checkResult (s : AuthState) (success : Bool) (response : LLSD) :
    AuthState :=
  if !success then
    beginAuthorisation s
  else if LLSD.getString response "stat" ≠ "ok" then
    beginAuthorisation s
  else
    deleteSelf (s.emit (Act.callbackInvoke true [])) true

/-- Embedding of `explanationCallback` (lines 115 to 141): on the
affirmative option (0) clear both token fields and issue the signed
request-token GET; on any other option report failure and destroy. -/
def explanationCallback (s : AuthState) (option : Nat) : AuthState :=
  if option = 0 then
    let s1 := (s.setStr "ExodusFlickrToken" "").setStr
      "ExodusFlickrTokenSecret" ""
    let s2 := s1.emit
      (Act.httpGet "https://www.flickr.com/services/oauth/request_token")
    { s2 with phase := Phase.awaitingRequestToken }
  else
    deleteSelf (s.emit (Act.callbackInvoke false [])) false

/-- Embedding of `gotRequestToken` (lines 143 to 165): on failure report
failure with an empty payload and destroy; on success persist the token and
secret from the parsed body, spawn the authorisation browser, and present
the verifier prompt. -/
def gotRequestToken (s : AuthState) (success : Bool) (params : LLSD) :
    AuthState :=
  if !success then
    deleteSelf (s.emit (Act.callbackInvoke false [])) false
  else
    let token := LLSD.getString params "oauth_token"
    let secret := LLSD.getString params "oauth_token_secret"
    let s1 := (s.setStr "ExodusFlickrToken" token).setStr
      "ExodusFlickrTokenSecret" secret
    let s2 := s1.emit (Act.openBrowser
      ("https://www.flickr.com/services/oauth/authorize?perms=write&oauth_token="
        ++ token))
    let s3 := s2.emit (Act.notify "ExodusFlickrVerificationPrompt")
    { s3 with phase := Phase.awaitingVerifier }

/-- Embedding of `gotVerifier` (lines 167 to 187): on option 1 (cancel)
report failure and destroy; otherwise issue the signed access-token GET. -/
def gotVerifier (s : AuthState) (option : Nat) (_response : LLSD) :
    AuthState :=
  if option = 1 then
    deleteSelf (s.emit (Act.callbackInvoke false [])) false
  else
    { s.emit
        (Act.httpGet "https://www.flickr.com/services/oauth/access_token")
      with phase := Phase.awaitingAccessToken }

/-- Embedding of `gotAccessToken` (lines 189 to 208): on success persist the
five profile fields and report success with the payload; on failure present
the failure notice and report failure with the payload; either way destroy
the attempt. -/
def gotAccessToken (s : AuthState) (success : Bool) (params : LLSD) :
    AuthState :=
  if success then
    let s1 := ((((s.setStr "ExodusFlickrToken"
        (LLSD.getString params "oauth_token")).setStr
      "ExodusFlickrTokenSecret"
        (LLSD.getString params "oauth_token_secret")).setStr
      "ExodusFlickrFullName" (LLSD.getString params "fullname")).setStr
      "ExodusFlickrNSID" (LLSD.getString params "user_nsid")).setStr
      "ExodusFlickrUsername" (LLSD.getString params "username")
    deleteSelf (s1.emit (Act.callbackInvoke true params)) true
  else
    deleteSelf ((s.emit
      (Act.notify "ExodusFlickrVerificationFailed")).emit
      (Act.callbackInvoke false params)) false

/-- Embedding of the constructor (lines 50 to 69).  When the flight flag is
already set the fresh attempt is deleted at once: no side effect, the flag
stays set, and `mAuthenticating` stays at its initial value.  Modelled from
the spec: the class header is not part of this fragment; per the spec an
attempt rejected at construction never clears the flag it did not set, so
the member starts false.  Otherwise the attempt marks itself authenticating,
sets the flag, and branches on whether both stored credentials are
present. -/
def construct (store : Store) (sAuthorisationInProgress : Bool) : AuthState :=
  if sAuthorisationInProgress then
    { store := store, sAuthorisationInProgress := true,
      mAuthenticating := false, phase := Phase.terminal false, trace := [] }
  else
    let s : AuthState :=
      { store := store, sAuthorisationInProgress := true,
        mAuthenticating := true, phase := Phase.validating, trace := [] }
    if store.getString "ExodusFlickrToken" = "" ∨
        store.getString "ExodusFlickrTokenSecret" = "" then
      beginAuthorisation s
    else
      checkAuthorisation s

end exoFlickrAuth

/-- External completions that resume the attempt: the probe result, the two
dialog choices, and the two token-leg results (each already passed through
`exoFlickrAuthResponse`). -/
inductive Event : Type
  | probeResult (success : Bool) (response : LLSD)
  | explanationChoice (option : Nat)
  | requestTokenResult (success : Bool) (params : LLSD)
  | verifierChoice (option : Nat) (response : LLSD)
  | accessTokenResult (success : Bool) (params : LLSD)
deriving DecidableEq

/-- Dispatch one completion to the handler the attempt is waiting in; a
completion that does not match the current phase has no pending callback in
the source and is ignored. -/
def step (s : AuthState) (e : Event) : AuthState :=
  match e with
  | Event.probeResult ok resp =>
    if s.phase = Phase.validating then exoFlickrAuth.checkResult s ok resp
    else s
  | Event.explanationChoice opt =>
    if s.phase = Phase.awaitingExplanation then
      exoFlickrAuth.explanationCallback s opt
    else s
  | Event.requestTokenResult ok p =>
    if s.phase = Phase.awaitingRequestToken then
      exoFlickrAuth.gotRequestToken s ok p
    else s
  | Event.verifierChoice opt resp =>
    if s.phase = Phase.awaitingVerifier then
      exoFlickrAuth.gotVerifier s opt resp
    else s
  | Event.accessTokenResult ok p =>
    if s.phase = Phase.awaitingAccessToken then
      exoFlickrAuth.gotAccessToken s ok p
    else s

/-- A whole attempt: construct it over an initial store and flight-flag
value, then feed it a sequence of completions. -/
def run (store : Store) (flag : Bool) (es : List Event) : AuthState :=
  es.foldl step (exoFlickrAuth.construct store flag)

/-- Shape of a step that leaves the attempt alive: the phase is not
terminal, the flight flag and `mAuthenticating` are untouched, and no
callback and no flag clear is added to the trace. -/
def keepsShape (s s' : AuthState) : Prop :=
  s'.phase.isTerminal = false ∧
  s'.sAuthorisationInProgress = s.sAuthorisationInProgress ∧
  s'.mAuthenticating = s.mAuthenticating ∧
  countCallbacks s'.trace = countCallbacks s.trace ∧
  countClears s'.trace = countClears s.trace

/-- Shape of a step that destroys a started attempt: the phase is terminal,
the flight flag is cleared, and exactly one callback invocation and one flag
clear are added to the trace. -/
def finishes (s s' : AuthState) : Prop :=
  s'.phase.isTerminal = true ∧
  s'.sAuthorisationInProgress = false ∧
  s'.mAuthenticating = s.mAuthenticating ∧
  countCallbacks s'.trace = countCallbacks s.trace + 1 ∧
  countClears s'.trace = countClears s.trace + 1

/-- Mutual-exclusion invariant: while an attempt that set the flight flag is
not yet terminal, the process-wide flag is still set, so a concurrent
construction is suppressed. -/
def activeInv (s : AuthState) : Prop :=
  s.mAuthenticating = true → s.phase.isTerminal = false →
    s.sAuthorisationInProgress = true

/-- Lifecycle invariant of an attempt that actually started: it owns the
flag; while alive it has fired no callback and cleared no flag, and once
terminal it has fired exactly one callback, cleared the flag exactly once,
and the flag is down. -/
def startedInv (s : AuthState) : Prop :=
  s.mAuthenticating = true ∧
  (s.phase.isTerminal = true →
    countCallbacks s.trace = 1 ∧ countClears s.trace = 1 ∧
      s.sAuthorisationInProgress = false) ∧
  (s.phase.isTerminal = false →
    countCallbacks s.trace = 0 ∧ countClears s.trace = 0 ∧
      s.sAuthorisationInProgress = true)

/-- A parsed token payload is paired when its `oauth_token` and
`oauth_token_secret` values are both empty or both non-empty. -/
def pairedLLSD (p : LLSD) : Bool :=
  decide (LLSD.getString p "oauth_token" = "") ==
    decide (LLSD.getString p "oauth_token_secret" = "")

/-- A completion is well formed when a successful token-leg payload is
paired; all other completions are unconstrained. -/
def wellFormedEvent : Event → Bool
  | Event.requestTokenResult true p => pairedLLSD p
  | Event.accessTokenResult true p => pairedLLSD p
  | _ => true

/-- The pairing invariant on the settings store: token and token secret are
both empty or both non-empty. -/
def pairedStore (st : Store) : Prop := st.token = "" ↔ st.tokenSecret = ""

/-- Modelled from the spec wording, for comparison against the source
classification (sections 4.1 and 7): a leg response counts as a failure
exactly when there is a connection error, a non-2xx HTTP status, or a 2xx
response whose application-level status field `stat` is not the success
marker "ok". -/
def specLegFailure (status : HttpStatusType) (rawBody : String) : Bool :=
  match status with
  | HttpStatusType.connectionError => true
  | HttpStatusType.httpCode c =>
    if 200 ≤ c ∧ c ≤ 299 then
      decide (LLSD.getString (LLURI.queryMap rawBody) "stat" ≠ "ok")
    else true

/-- Store with all five fields empty. -/
def storeEmpty : Store :=
  { token := "", tokenSecret := "", fullName := "", nsid := "",
    username := "" }

/-- Store holding a previously persisted token and secret. -/
def storeSeeded : Store :=
  { token := "tokA", tokenSecret := "secB", fullName := "", nsid := "",
    username := "" }

/-- Attempt over an empty store that accepted the consent prompt: it waits
for the request-token response. -/
def sReq : AuthState := run storeEmpty false [Event.explanationChoice 0]

/-- Attempt over a seeded store: it waits for the validation probe. -/
def sVal : AuthState := run storeSeeded false []

/-- Attempt that received a request token and a verifier: it waits for the
access-token response. -/
def sAcc : AuthState :=
  run storeEmpty false
    [Event.explanationChoice 0,
     Event.requestTokenResult true
       [("oauth_token", "ABC"), ("oauth_token_secret", "XYZ")],
     Event.verifierChoice 0 []]

@[simp] lemma AuthState.emit_store (s : AuthState) (a : Act) :
    (s.emit a).store = s.store := rfl

@[simp] lemma AuthState.emit_flag (s : AuthState) (a : Act) :
    (s.emit a).sAuthorisationInProgress = s.sAuthorisationInProgress := rfl

@[simp] lemma AuthState.emit_mAuth (s : AuthState) (a : Act) :
    (s.emit a).mAuthenticating = s.mAuthenticating := rfl

@[simp] lemma AuthState.emit_phase (s : AuthState) (a : Act) :
    (s.emit a).phase = s.phase := rfl

@[simp] lemma AuthState.emit_trace (s : AuthState) (a : Act) :
    (s.emit a).trace = s.trace ++ [a] := rfl

@[simp] lemma AuthState.setStr_store (s : AuthState) (k v : String) :
    (s.setStr k v).store = s.store.setString k v := rfl

@[simp] lemma AuthState.setStr_flag (s : AuthState) (k v : String) :
    (s.setStr k v).sAuthorisationInProgress = s.sAuthorisationInProgress := rfl

@[simp] lemma AuthState.setStr_mAuth (s : AuthState) (k v : String) :
    (s.setStr k v).mAuthenticating = s.mAuthenticating := rfl

@[simp] lemma AuthState.setStr_phase (s : AuthState) (k v : String) :
    (s.setStr k v).phase = s.phase := rfl

@[simp] lemma AuthState.setStr_trace (s : AuthState) (k v : String) :
    (s.setStr k v).trace = s.trace ++ [Act.storeWrite k v] := rfl

@[simp] lemma Store.getString_token (st : Store) :
    st.getString "ExodusFlickrToken" = st.token := rfl

@[simp] lemma Store.getString_secret (st : Store) :
    st.getString "ExodusFlickrTokenSecret" = st.tokenSecret := rfl

@[simp] lemma Store.setString_token (st : Store) (v : String) :
    st.setString "ExodusFlickrToken" v = { st with token := v } := rfl

@[simp] lemma Store.setString_secret (st : Store) (v : String) :
    st.setString "ExodusFlickrTokenSecret" v = { st with tokenSecret := v } := rfl

@[simp] lemma Store.setString_fullName (st : Store) (v : String) :
    st.setString "ExodusFlickrFullName" v = { st with fullName := v } := rfl

@[simp] lemma Store.setString_nsid (st : Store) (v : String) :
    st.setString "ExodusFlickrNSID" v = { st with nsid := v } := rfl

@[simp] lemma Store.setString_username (st : Store) (v : String) :
    st.setString "ExodusFlickrUsername" v = { st with username := v } := rfl

@[simp] lemma countCallbacks_append (l1 l2 : List Act) :
    countCallbacks (l1 ++ l2) = countCallbacks l1 + countCallbacks l2 := by
  simp [countCallbacks, List.countP_append]

@[simp] lemma countClears_append (l1 l2 : List Act) :
    countClears (l1 ++ l2) = countClears l1 + countClears l2 := by
  simp [countClears, List.countP_append]

@[simp] lemma countWrites_append (l1 l2 : List Act) :
    countWrites (l1 ++ l2) = countWrites l1 + countWrites l2 := by
  simp [countWrites, List.countP_append]

@[simp] lemma countHttp_append (l1 l2 : List Act) :
    countHttp (l1 ++ l2) = countHttp l1 + countHttp l2 := by
  simp [countHttp, List.countP_append]

namespace exoFlickrAuth

@[simp] lemma deleteSelf_store (s : AuthState) (b : Bool) :
    (deleteSelf s b).store = s.store := by
  unfold deleteSelf destruct; split <;> rfl

@[simp] lemma deleteSelf_mAuth (s : AuthState) (b : Bool) :
    (deleteSelf s b).mAuthenticating = s.mAuthenticating := by
  unfold deleteSelf destruct; split <;> rfl

@[simp] lemma deleteSelf_phase (s : AuthState) (b : Bool) :
    (deleteSelf s b).phase = Phase.terminal b := by
  unfold deleteSelf destruct; split <;> rfl

lemma deleteSelf_flag (s : AuthState) (b : Bool)
    (hA : s.mAuthenticating = true) :
    (deleteSelf s b).sAuthorisationInProgress = false := by
  unfold deleteSelf destruct; simp [hA]

lemma deleteSelf_trace (s : AuthState) (b : Bool)
    (hA : s.mAuthenticating = true) :
    (deleteSelf s b).trace = s.trace ++ [Act.clearFlight] := by
  unfold deleteSelf destruct; simp [hA]

lemma checkResult_mAuth (s : AuthState) (ok : Bool) (resp : LLSD) :
    (checkResult s ok resp).mAuthenticating = s.mAuthenticating := by
  unfold checkResult beginAuthorisation; split <;> [rfl; split <;> simp]

lemma explanationCallback_mAuth (s : AuthState) (opt : Nat) :
    (explanationCallback s opt).mAuthenticating = s.mAuthenticating := by
  unfold explanationCallback; split <;> simp

lemma gotRequestToken_mAuth (s : AuthState) (ok : Bool) (p : LLSD) :
    (gotRequestToken s ok p).mAuthenticating = s.mAuthenticating := by
  unfold gotRequestToken; split <;> simp

lemma gotVerifier_mAuth (s : AuthState) (opt : Nat) (resp : LLSD) :
    (gotVerifier s opt resp).mAuthenticating = s.mAuthenticating := by
  unfold gotVerifier; split <;> simp

lemma gotAccessToken_mAuth (s : AuthState) (ok : Bool) (p : LLSD) :
    (gotAccessToken s ok p).mAuthenticating = s.mAuthenticating := by
  unfold gotAccessToken; split <;> simp

end exoFlickrAuth

lemma step_mAuth (s : AuthState) (e : Event) :
    (step s e).mAuthenticating = s.mAuthenticating := by
  cases e <;> simp only [step] <;> split <;>
    first
      | rfl
      | apply exoFlickrAuth.checkResult_mAuth
      | apply exoFlickrAuth.explanationCallback_mAuth
      | apply exoFlickrAuth.gotRequestToken_mAuth
      | apply exoFlickrAuth.gotVerifier_mAuth
      | apply exoFlickrAuth.gotAccessToken_mAuth

lemma step_terminal (s : AuthState) (e : Event) (h : s.phase.isTerminal = true) :
    step s e = s := by
  have hp : ∃ b, s.phase = Phase.terminal b := by
    cases hq : s.phase <;> simp_all [Phase.isTerminal]
  obtain ⟨b, hb⟩ := hp
  cases e <;> simp [step, hb]

namespace exoFlickrAuth

@[simp] lemma deleteSelf_flag2 (s : AuthState) (b : Bool)
    (hA : s.mAuthenticating = true) :
    (deleteSelf s b).sAuthorisationInProgress = false :=
  deleteSelf_flag s b hA

@[simp] lemma deleteSelf_trace2 (s : AuthState) (b : Bool)
    (hA : s.mAuthenticating = true) :
    (deleteSelf s b).trace = s.trace ++ [Act.clearFlight] :=
  deleteSelf_trace s b hA

lemma beginAuthorisation_shape (s : AuthState) :
    keepsShape s (beginAuthorisation s) := by
  unfold keepsShape beginAuthorisation
  refine ⟨rfl, rfl, rfl, ?_, ?_⟩ <;>
    simp [countCallbacks, countClears, List.countP_append, List.countP_cons,
      List.countP_nil, isCallback, isClear]

lemma checkResult_shape (s : AuthState) (ok : Bool) (resp : LLSD)
    (hA : s.mAuthenticating = true) :
    keepsShape s (checkResult s ok resp) ∨
    finishes s (checkResult s ok resp) := by
  unfold checkResult
  split
  · exact Or.inl (beginAuthorisation_shape s)
  · split
    · exact Or.inl (beginAuthorisation_shape s)
    · refine Or.inr ⟨?_, ?_, ?_, ?_, ?_⟩ <;>
        simp [hA, Phase.isTerminal, countCallbacks, countClears,
          List.countP_append, List.countP_cons, List.countP_nil,
          isCallback, isClear]

lemma explanationCallback_shape (s : AuthState) (opt : Nat)
    (hA : s.mAuthenticating = true) :
    keepsShape s (explanationCallback s opt) ∨
    finishes s (explanationCallback s opt) := by
  unfold explanationCallback
  split
  · refine Or.inl ⟨?_, ?_, ?_, ?_, ?_⟩ <;>
      simp [Phase.isTerminal, countCallbacks, countClears,
        List.countP_append, List.countP_cons, List.countP_nil,
        isCallback, isClear]
  · refine Or.inr ⟨?_, ?_, ?_, ?_, ?_⟩ <;>
      simp [hA, Phase.isTerminal, countCallbacks, countClears,
        List.countP_append, List.countP_cons, List.countP_nil,
        isCallback, isClear]

lemma gotRequestToken_shape (s : AuthState) (ok : Bool) (p : LLSD)
    (hA : s.mAuthenticating = true) :
    keepsShape s (gotRequestToken s ok p) ∨
    finishes s (gotRequestToken s ok p) := by
  unfold gotRequestToken
  split
  · refine Or.inr ⟨?_, ?_, ?_, ?_, ?_⟩ <;>
      simp [hA, Phase.isTerminal, countCallbacks, countClears,
        List.countP_append, List.countP_cons, List.countP_nil,
        isCallback, isClear]
  · refine Or.inl ⟨?_, ?_, ?_, ?_, ?_⟩ <;>
      simp [Phase.isTerminal, countCallbacks, countClears,
        List.countP_append, List.countP_cons, List.countP_nil,
        isCallback, isClear]

lemma gotVerifier_shape (s : AuthState) (opt : Nat) (resp : LLSD)
    (hA : s.mAuthenticating = true) :
    keepsShape s (gotVerifier s opt resp) ∨
    finishes s (gotVerifier s opt resp) := by
  unfold gotVerifier
  split
  · refine Or.inr ⟨?_, ?_, ?_, ?_, ?_⟩ <;>
      simp [hA, Phase.isTerminal, countCallbacks, countClears,
        List.countP_append, List.countP_cons, List.countP_nil,
        isCallback, isClear]
  · refine Or.inl ⟨?_, ?_, ?_, ?_, ?_⟩ <;>
      simp [Phase.isTerminal, countCallbacks, countClears,
        List.countP_append, List.countP_cons, List.countP_nil,
        isCallback, isClear]

lemma gotAccessToken_shape (s : AuthState) (ok : Bool) (p : LLSD)
    (hA : s.mAuthenticating = true) :
    keepsShape s (gotAccessToken s ok p) ∨
    finishes s (gotAccessToken s ok p) := by
  unfold gotAccessToken
  split <;>
    refine Or.inr ⟨?_, ?_, ?_, ?_, ?_⟩ <;>
      simp [hA, Phase.isTerminal, countCallbacks, countClears,
        List.countP_append, List.countP_cons, List.countP_nil,
        isCallback, isClear]

end exoFlickrAuth

lemma step_shape (s : AuthState) (e : Event) (hA : s.mAuthenticating = true)
    (hT : s.phase.isTerminal = false) :
    keepsShape s (step s e) ∨ finishes s (step s e) := by
  cases e <;> simp only [step] <;> split <;>
    first
      | exact Or.inl ⟨hT, rfl, rfl, rfl, rfl⟩
      | exact exoFlickrAuth.checkResult_shape s _ _ hA
      | exact exoFlickrAuth.explanationCallback_shape s _ hA
      | exact exoFlickrAuth.gotRequestToken_shape s _ _ hA
      | exact exoFlickrAuth.gotVerifier_shape s _ _ hA
      | exact exoFlickrAuth.gotAccessToken_shape s _ _ hA

lemma step_activeInv (s : AuthState) (e : Event) (h : activeInv s) :
    activeInv (step s e) := by
  by_cases hT : s.phase.isTerminal = true
  · rw [step_terminal s e hT]; exact h
  · intro hm ht
    have hT2 : s.phase.isTerminal = false := by
      cases hb : s.phase.isTerminal
      · rfl
      · exact absurd hb hT
    have hA : s.mAuthenticating = true := by rw [step_mAuth] at hm; exact hm
    rcases step_shape s e hA hT2 with ⟨_, h2, _, _, _⟩ | ⟨h1, _, _, _, _⟩
    · rw [h2]; exact h hA hT2
    · rw [h1] at ht; exact absurd ht (by decide)

lemma step_startedInv (s : AuthState) (e : Event) (h : startedInv s) :
    startedInv (step s e) := by
  obtain ⟨hA, hterm, hlive⟩ := h
  by_cases hT : s.phase.isTerminal = true
  · rw [step_terminal s e hT]; exact ⟨hA, hterm, hlive⟩
  · have hT2 : s.phase.isTerminal = false := by
      cases hb : s.phase.isTerminal
      · rfl
      · exact absurd hb hT
    obtain ⟨hc0, hl0, hf⟩ := hlive hT2
    rcases step_shape s e hA hT2 with ⟨h1, h2, h3, h4, h5⟩ | ⟨h1, h2, h3, h4, h5⟩
    · refine ⟨by rw [step_mAuth]; exact hA, ?_, ?_⟩
      · intro ht; rw [h1] at ht; exact absurd ht (by decide)
      · intro _; exact ⟨by rw [h4, hc0], by rw [h5, hl0], by rw [h2, hf]⟩
    · refine ⟨by rw [step_mAuth]; exact hA, ?_, ?_⟩
      · intro _; exact ⟨by rw [h4, hc0], by rw [h5, hl0], h2⟩
      · intro ht; rw [h1] at ht; exact absurd ht (by decide)

lemma construct_flag_true (st : Store) :
    exoFlickrAuth.construct st true =
      { store := st, sAuthorisationInProgress := true,
        mAuthenticating := false, phase := Phase.terminal false,
        trace := [] } := rfl

lemma construct_startedInv (st : Store) :
    startedInv (exoFlickrAuth.construct st false) := by
  unfold startedInv exoFlickrAuth.construct
  simp only [Bool.false_eq_true, if_false]
  split <;>
    refine ⟨rfl, ?_, ?_⟩ <;>
      simp [exoFlickrAuth.beginAuthorisation, exoFlickrAuth.checkAuthorisation,
        Phase.isTerminal, countCallbacks, countClears, List.countP_cons,
        List.countP_nil, isCallback, isClear]

lemma construct_activeInv (st : Store) (flag : Bool) :
    activeInv (exoFlickrAuth.construct st flag) := by
  cases flag
  · intro hm ht
    exact ((construct_startedInv st).2.2 ht).2.2
  · intro _ _
    rfl

lemma foldl_step_inv {P : AuthState → Prop}
    (hstep : ∀ s e, P s → P (step s e)) (es : List Event) :
    ∀ s : AuthState, P s → P (es.foldl step s) := by
  induction es with
  | nil => intro s h; exact h
  | cons e tl ih => intro s h; exact ih (step s e) (hstep s e h)

lemma foldl_step_stop (es : List Event) (s : AuthState)
    (h : s.phase.isTerminal = true) : es.foldl step s = s := by
  induction es with
  | nil => rfl
  | cons e tl ih => rw [List.foldl_cons, step_terminal s e h]; exact ih

lemma run_startedInv (st : Store) (es : List Event) :
    startedInv (run st false es) :=
  foldl_step_inv step_startedInv es _ (construct_startedInv st)

lemma run_activeInv (st : Store) (flag : Bool) (es : List Event) :
    activeInv (run st flag es) :=
  foldl_step_inv step_activeInv es _ (construct_activeInv st flag)

lemma run_flag_true (st : Store) (es : List Event) :
    run st true es = exoFlickrAuth.construct st true :=
  foldl_step_stop es _ rfl

lemma pairedLLSD_iff (p : LLSD) (h : pairedLLSD p = true) :
    LLSD.getString p "oauth_token" = "" ↔
      LLSD.getString p "oauth_token_secret" = "" := by
  unfold pairedLLSD at h
  rw [beq_iff_eq] at h
  exact decide_eq_decide.mp h

lemma step_store_shape (s : AuthState) (e : Event)
    (hwf : wellFormedEvent e = true) :
    (step s e).store = s.store ∨ pairedStore (step s e).store := by
  cases e
  case probeResult ok resp =>
    left
    simp only [step]
    split
    · unfold exoFlickrAuth.checkResult exoFlickrAuth.beginAuthorisation
      split
      · simp
      · split <;> simp
    · rfl
  case explanationChoice opt =>
    simp only [step]
    split
    · unfold exoFlickrAuth.explanationCallback
      split
      · right
        simp [pairedStore]
      · left
        simp
    · left; rfl
  case requestTokenResult ok p =>
    simp only [step]
    split
    · unfold exoFlickrAuth.gotRequestToken
      split
      · left; simp
      case isFalse hok =>
        have hk : ok = true := by revert hok; cases ok <;> simp
        rw [hk] at hwf
        have h2 := pairedLLSD_iff p hwf
        right
        simp [pairedStore]
        exact h2
    · left; rfl
  case verifierChoice opt resp =>
    left
    simp only [step]
    split
    · unfold exoFlickrAuth.gotVerifier
      split <;> simp
    · rfl
  case accessTokenResult ok p =>
    simp only [step]
    split
    · unfold exoFlickrAuth.gotAccessToken
      split
      case isTrue hok =>
        rw [hok] at hwf
        have h2 := pairedLLSD_iff p hwf
        right
        simp [pairedStore]
        exact h2
      · left; simp
    · left; rfl

lemma construct_store (st : Store) (flag : Bool) :
    (exoFlickrAuth.construct st flag).store = st := by
  unfold exoFlickrAuth.construct exoFlickrAuth.beginAuthorisation
    exoFlickrAuth.checkAuthorisation
  split
  · rfl
  · split <;> rfl

lemma foldl_step_pair (init : Store) (es : List Event) :
    ∀ s : AuthState, (∀ e ∈ es, wellFormedEvent e = true) →
      (s.store = init ∨ pairedStore s.store) →
      ((es.foldl step s).store = init ∨ pairedStore (es.foldl step s).store) := by
  induction es with
  | nil => intro s _ h; exact h
  | cons e tl ih =>
    intro s hwf h
    refine ih (step s e) (fun x hx => hwf x (List.mem_cons_of_mem e hx)) ?_
    rcases step_store_shape s e (hwf e (List.mem_cons_self e tl)) with h1 | h1
    · rw [h1]; exact h
    · exact Or.inr h1

/-- C1: Single-flight: at most one attempt is active at any time.  A
construction while the flight flag is set produces an immediately terminal
failed attempt with an empty trace (zero callback invocations, zero store
writes) and leaves all process-wide state unchanged; and along every run an
attempt that set the flag keeps the flag set until it is terminal, so a
second construction while one attempt is active is always suppressed. -/
theorem C1_single_flight :
    (∀ st : Store, exoFlickrAuth.construct st true =
      { store := st, sAuthorisationInProgress := true,
        mAuthenticating := false, phase := Phase.terminal false,
        trace := [] }) ∧
    (∀ (st : Store) (flag : Bool) (es : List Event),
      activeInv (run st flag es)) :=
  ⟨construct_flag_true, run_activeInv⟩

/-- C1 witness at a concrete input. -/
theorem C1_single_flight_witness :
    (exoFlickrAuth.construct storeEmpty true =
      { store := storeEmpty, sAuthorisationInProgress := true,
        mAuthenticating := false, phase := Phase.terminal false,
        trace := [] }) ∧
    (run storeEmpty false []).sAuthorisationInProgress = true :=
  ⟨C1_single_flight.1 storeEmpty,
    C1_single_flight.2 storeEmpty false [] (by decide) (by decide)⟩

/-- C2: Terminal contract: every started attempt (constructed with the
flight flag down) that reaches a terminal phase has invoked its callback
exactly once and cleared the flight flag exactly once, on every success and
failure path; an attempt rejected at construction as a duplicate never
invokes its callback and never clears the flag it did not set. -/
theorem C2_terminal_contract :
    (∀ (st : Store) (es : List Event),
      (run st false es).phase.isTerminal = true →
        countCallbacks (run st false es).trace = 1 ∧
        countClears (run st false es).trace = 1 ∧
        (run st false es).sAuthorisationInProgress = false) ∧
    (∀ (st : Store) (es : List Event),
      countCallbacks (run st true es).trace = 0 ∧
      countClears (run st true es).trace = 0 ∧
      (run st true es).sAuthorisationInProgress = true) := by
  constructor
  · intro st es ht
    exact (run_startedInv st es).2.1 ht
  · intro st es
    rw [run_flag_true]
    exact ⟨rfl, rfl, rfl⟩

/-- C2 witness at a concrete input: a started attempt whose consent prompt
was declined is terminal with one callback and one flag clear. -/
theorem C2_terminal_contract_witness :
    (run storeEmpty false [Event.explanationChoice 1]).phase.isTerminal
      = true ∧
    (countCallbacks (run storeEmpty false [Event.explanationChoice 1]).trace
        = 1 ∧
      countClears (run storeEmpty false [Event.explanationChoice 1]).trace
        = 1 ∧
      (run storeEmpty false
        [Event.explanationChoice 1]).sAuthorisationInProgress = false) :=
  ⟨by decide,
    C2_terminal_contract.1 storeEmpty [Event.explanationChoice 1] (by decide)⟩

/-- C3 counterexample: the claim that after every write the Token and
TokenSecret fields are both empty or both non-empty is false on the code.
A request-token leg whose 200-OK body carries `oauth_token` but no
`oauth_token_secret` makes the attempt write Token="ABC" and
TokenSecret="", a half-written store, after four store writes. -/
theorem C3_pairing_counterexample :
    countWrites (run storeEmpty false [Event.explanationChoice 0,
      Event.requestTokenResult true [("oauth_token", "ABC")]]).trace = 4 ∧
    (run storeEmpty false [Event.explanationChoice 0,
      Event.requestTokenResult true
        [("oauth_token", "ABC")]]).store.token = "ABC" ∧
    (run storeEmpty false [Event.explanationChoice 0,
      Event.requestTokenResult true
        [("oauth_token", "ABC")]]).store.tokenSecret = "" := by
  decide

/-- C3 amended: after every completed handler step of a run all of whose
successful token-leg payloads carry `oauth_token` and `oauth_token_secret`
values that are both empty or both non-empty, the store is either still the
initial one (the attempt has not changed it) or satisfies the pairing
invariant: Token and TokenSecret are both empty or both non-empty. -/
theorem C3_pairing_amended (st : Store) (flag : Bool) (es : List Event)
    (hwf : ∀ e ∈ es, wellFormedEvent e = true) :
    (run st flag es).store = st ∨ pairedStore (run st flag es).store := by
  refine foldl_step_pair st es _ hwf ?_
  left
  exact construct_store st flag

/-- C3 amended witness at a concrete input: a well-formed handshake that
wrote the store ends with paired credentials. -/
theorem C3_pairing_amended_witness :
    (∀ e ∈ [Event.explanationChoice 0,
        Event.requestTokenResult true
          [("oauth_token", "ABC"), ("oauth_token_secret", "XYZ")]],
      wellFormedEvent e = true) ∧
    ((run storeEmpty false [Event.explanationChoice 0,
        Event.requestTokenResult true
          [("oauth_token", "ABC"), ("oauth_token_secret", "XYZ")]]).store
        = storeEmpty ∨
      pairedStore (run storeEmpty false [Event.explanationChoice 0,
        Event.requestTokenResult true
          [("oauth_token", "ABC"),
           ("oauth_token_secret", "XYZ")]]).store) :=
  ⟨by decide,
    C3_pairing_amended storeEmpty false
      [Event.explanationChoice 0,
       Event.requestTokenResult true
         [("oauth_token", "ABC"), ("oauth_token_secret", "XYZ")]]
      (by decide)⟩

lemma deleteSelf_countHttp (s : AuthState) (b : Bool) :
    countHttp (exoFlickrAuth.deleteSelf s b).trace = countHttp s.trace := by
  unfold exoFlickrAuth.deleteSelf exoFlickrAuth.destruct
  split <;>
    simp [countHttp, List.countP_append, List.countP_cons, List.countP_nil,
      isHttp]

/-- C4 counterexample: the claimed classification (failure exactly on
connection error, non-2xx status, or 2xx with a non-ok application status
field) is false on the code.  For a request-token response with HTTP status
200 and body "stat=fail" the claimed classification is failure, yet the
code classifies it as success and proceeds to the verifier prompt instead
of failing the leg. -/
theorem C4_leg_failure_counterexample :
    specLegFailure (HttpStatusType.httpCode 200) "stat=fail" = true ∧
    (exoFlickrAuthResponse (HttpStatusType.httpCode 200) "stat=fail").fst
      = true ∧
    (step sReq (Event.requestTokenResult
      (exoFlickrAuthResponse (HttpStatusType.httpCode 200) "stat=fail").fst
      (exoFlickrAuthResponse (HttpStatusType.httpCode 200)
        "stat=fail").snd)).phase = Phase.awaitingVerifier := by
  decide

/-- C4 amended: on the handshake legs a response is classified as failure
exactly when the HTTP status is not 200 OK (connection errors included);
the application-level status field of the body is not consulted on these
legs.  Every leg classified as failure ends the handshake for that leg in
a terminal failure with no further HTTP request (no automatic retry). -/
theorem C4_leg_failure_amended :
    (∀ (status : HttpStatusType) (body : String),
      (exoFlickrAuthResponse status body).fst = false ↔
        status ≠ HttpStatusType.httpCode 200) ∧
    (∀ (s : AuthState) (p : LLSD), s.phase = Phase.awaitingRequestToken →
      (step s (Event.requestTokenResult false p)).phase
          = Phase.terminal false ∧
        countHttp (step s (Event.requestTokenResult false p)).trace
          = countHttp s.trace) ∧
    (∀ (s : AuthState) (p : LLSD), s.phase = Phase.awaitingAccessToken →
      (step s (Event.accessTokenResult false p)).phase
          = Phase.terminal false ∧
        countHttp (step s (Event.accessTokenResult false p)).trace
          = countHttp s.trace) := by
  refine ⟨?_, ?_, ?_⟩
  · intro status body
    cases status <;>
      simp [exoFlickrAuthResponse, HttpStatusType.isHTTPOk]
  · intro s p hph
    have hstep : step s (Event.requestTokenResult false p)
        = exoFlickrAuth.gotRequestToken s false p := by
      simp [step, hph]
    rw [hstep]
    have hred : exoFlickrAuth.gotRequestToken s false p
        = exoFlickrAuth.deleteSelf
            (s.emit (Act.callbackInvoke false [])) false := rfl
    rw [hred]
    refine ⟨by simp, ?_⟩
    rw [deleteSelf_countHttp]
    simp [countHttp, List.countP_append, List.countP_cons, List.countP_nil,
      isHttp]
  · intro s p hph
    have hstep : step s (Event.accessTokenResult false p)
        = exoFlickrAuth.gotAccessToken s false p := by
      simp [step, hph]
    rw [hstep]
    have hred : exoFlickrAuth.gotAccessToken s false p
        = exoFlickrAuth.deleteSelf
            ((s.emit (Act.notify "ExodusFlickrVerificationFailed")).emit
              (Act.callbackInvoke false p)) false := rfl
    rw [hred]
    refine ⟨by simp, ?_⟩
    rw [deleteSelf_countHttp]
    simp [countHttp, List.countP_append, List.countP_cons, List.countP_nil,
      isHttp]

/-- C4 amended witness at concrete inputs: a connection error is classified
as failure, and a failed request-token leg at a concrete waiting state ends
terminally without issuing a further request. -/
theorem C4_leg_failure_amended_witness :
    ((exoFlickrAuthResponse HttpStatusType.connectionError "").fst = false ↔
      HttpStatusType.connectionError ≠ HttpStatusType.httpCode 200) ∧
    sReq.phase = Phase.awaitingRequestToken ∧
    ((step sReq (Event.requestTokenResult false [])).phase
        = Phase.terminal false ∧
      countHttp (step sReq (Event.requestTokenResult false [])).trace
        = countHttp sReq.trace) :=
  ⟨C4_leg_failure_amended.1 HttpStatusType.connectionError "", by decide,
    C4_leg_failure_amended.2.1 sReq [] (by decide)⟩

/-- C5: every validation-probe outcome that is a transport failure or whose
body `stat` field is not "ok" sends the attempt to the explanatory consent
prompt (awaiting explanation consent), appending only that prompt to the
trace — so no callback is invoked, no terminal phase is reached, and the
store and flight flag are untouched at that point. -/
theorem C5_probe_failure_reauthorises (s : AuthState) (ok : Bool)
    (resp : LLSD) (hph : s.phase = Phase.validating)
    (hfail : ok = false ∨ ¬ LLSD.getString resp "stat" = "ok") :
    (step s (Event.probeResult ok resp)).phase = Phase.awaitingExplanation ∧
    (step s (Event.probeResult ok resp)).trace =
      s.trace ++ [Act.notify "ExodusFlickrVerificationExplanation"] ∧
    (step s (Event.probeResult ok resp)).store = s.store ∧
    (step s (Event.probeResult ok resp)).sAuthorisationInProgress =
      s.sAuthorisationInProgress := by
  have hstep : step s (Event.probeResult ok resp)
      = exoFlickrAuth.checkResult s ok resp := by
    simp [step, hph]
  have hcr : exoFlickrAuth.checkResult s ok resp
      = exoFlickrAuth.beginAuthorisation s := by
    rcases hfail with hf | hf
    · rw [hf]
      rfl
    · cases ok
      · rfl
      · unfold exoFlickrAuth.checkResult
        simp [hf]
  rw [hstep, hcr]
  unfold exoFlickrAuth.beginAuthorisation
  exact ⟨rfl, by simp, rfl, rfl⟩

/-- C5 witness at a concrete input: a transport failure on the probe of a
seeded attempt re-runs the authorisation flow. -/
theorem C5_probe_failure_reauthorises_witness :
    sVal.phase = Phase.validating ∧
    ((step sVal (Event.probeResult false [])).phase
        = Phase.awaitingExplanation ∧
      (step sVal (Event.probeResult false [])).trace =
        sVal.trace ++ [Act.notify "ExodusFlickrVerificationExplanation"] ∧
      (step sVal (Event.probeResult false [])).store = sVal.store ∧
      (step sVal (Event.probeResult false [])).sAuthorisationInProgress =
        sVal.sAuthorisationInProgress) :=
  ⟨by decide,
    C5_probe_failure_reauthorises sVal false [] (by decide) (Or.inl rfl)⟩

/-- C6: on a successful request-token leg the parsed `oauth_token` and
`oauth_token_secret` values are persisted to the Token and TokenSecret
store fields, and in the trace both writes precede the opening of the
authorisation browser and the verifier prompt. -/
theorem C6_request_token_persists (s : AuthState) (status : HttpStatusType)
    (body : String) (ok : Bool) (params : LLSD)
    (hph : s.phase = Phase.awaitingRequestToken)
    (hst : status = HttpStatusType.httpCode 200)
    (hr : exoFlickrAuthResponse status body = (ok, params)) :
    (step s (Event.requestTokenResult ok params)).store.token =
      LLSD.getString params "oauth_token" ∧
    (step s (Event.requestTokenResult ok params)).store.tokenSecret =
      LLSD.getString params "oauth_token_secret" ∧
    (step s (Event.requestTokenResult ok params)).trace = s.trace ++
      [Act.storeWrite "ExodusFlickrToken"
         (LLSD.getString params "oauth_token"),
       Act.storeWrite "ExodusFlickrTokenSecret"
         (LLSD.getString params "oauth_token_secret"),
       Act.openBrowser
         ("https://www.flickr.com/services/oauth/authorize?perms=write&oauth_token="
           ++ LLSD.getString params "oauth_token"),
       Act.notify "ExodusFlickrVerificationPrompt"] ∧
    (step s (Event.requestTokenResult ok params)).phase =
      Phase.awaitingVerifier := by
  subst hst
  have hok : ok = true := by
    have h := congrArg Prod.fst hr
    simpa [exoFlickrAuthResponse, HttpStatusType.isHTTPOk] using h.symm
  subst hok
  have hstep : step s (Event.requestTokenResult true params)
      = exoFlickrAuth.gotRequestToken s true params := by
    simp [step, hph]
  rw [hstep]
  unfold exoFlickrAuth.gotRequestToken
  refine ⟨?_, ?_, ?_, ?_⟩ <;> simp [List.append_assoc]

/-- C6 witness at the concrete body from the spec example. -/
theorem C6_request_token_persists_witness :
    sReq.phase = Phase.awaitingRequestToken ∧
    exoFlickrAuthResponse (HttpStatusType.httpCode 200)
        "oauth_token=ABC&oauth_token_secret=XYZ"
      = (true, [("oauth_token", "ABC"), ("oauth_token_secret", "XYZ")]) ∧
    ((step sReq (Event.requestTokenResult true
        [("oauth_token", "ABC"),
         ("oauth_token_secret", "XYZ")])).store.token =
      LLSD.getString [("oauth_token", "ABC"), ("oauth_token_secret", "XYZ")]
        "oauth_token" ∧
    (step sReq (Event.requestTokenResult true
        [("oauth_token", "ABC"),
         ("oauth_token_secret", "XYZ")])).store.tokenSecret =
      LLSD.getString [("oauth_token", "ABC"), ("oauth_token_secret", "XYZ")]
        "oauth_token_secret" ∧
    (step sReq (Event.requestTokenResult true
        [("oauth_token", "ABC"), ("oauth_token_secret", "XYZ")])).trace =
      sReq.trace ++
      [Act.storeWrite "ExodusFlickrToken"
         (LLSD.getString
           [("oauth_token", "ABC"), ("oauth_token_secret", "XYZ")]
           "oauth_token"),
       Act.storeWrite "ExodusFlickrTokenSecret"
         (LLSD.getString
           [("oauth_token", "ABC"), ("oauth_token_secret", "XYZ")]
           "oauth_token_secret"),
       Act.openBrowser
         ("https://www.flickr.com/services/oauth/authorize?perms=write&oauth_token="
           ++ LLSD.getString
               [("oauth_token", "ABC"), ("oauth_token_secret", "XYZ")]
               "oauth_token"),
       Act.notify "ExodusFlickrVerificationPrompt"] ∧
    (step sReq (Event.requestTokenResult true
        [("oauth_token", "ABC"), ("oauth_token_secret", "XYZ")])).phase =
      Phase.awaitingVerifier) :=
  ⟨by decide, by decide,
    C6_request_token_persists sReq (HttpStatusType.httpCode 200)
      "oauth_token=ABC&oauth_token_secret=XYZ" true
      [("oauth_token", "ABC"), ("oauth_token_secret", "XYZ")]
      (by decide) rfl (by decide)⟩

/-- C7: on a successful access-token leg the five store fields Token,
TokenSecret, FullName, NSID, Username are set to the parsed payload values
of `oauth_token`, `oauth_token_secret`, `fullname`, `user_nsid`,
`username`, the callback is invoked as (true, payload), and the attempt
ends terminally successful. -/
theorem C7_access_token_success (s : AuthState) (status : HttpStatusType)
    (body : String) (ok : Bool) (params : LLSD)
    (hph : s.phase = Phase.awaitingAccessToken)
    (hA : s.mAuthenticating = true)
    (hst : status = HttpStatusType.httpCode 200)
    (hr : exoFlickrAuthResponse status body = (ok, params)) :
    (step s (Event.accessTokenResult ok params)).store.token =
      LLSD.getString params "oauth_token" ∧
    (step s (Event.accessTokenResult ok params)).store.tokenSecret =
      LLSD.getString params "oauth_token_secret" ∧
    (step s (Event.accessTokenResult ok params)).store.fullName =
      LLSD.getString params "fullname" ∧
    (step s (Event.accessTokenResult ok params)).store.nsid =
      LLSD.getString params "user_nsid" ∧
    (step s (Event.accessTokenResult ok params)).store.username =
      LLSD.getString params "username" ∧
    (step s (Event.accessTokenResult ok params)).trace = s.trace ++
      [Act.storeWrite "ExodusFlickrToken"
         (LLSD.getString params "oauth_token"),
       Act.storeWrite "ExodusFlickrTokenSecret"
         (LLSD.getString params "oauth_token_secret"),
       Act.storeWrite "ExodusFlickrFullName"
         (LLSD.getString params "fullname"),
       Act.storeWrite "ExodusFlickrNSID"
         (LLSD.getString params "user_nsid"),
       Act.storeWrite "ExodusFlickrUsername"
         (LLSD.getString params "username"),
       Act.callbackInvoke true params, Act.clearFlight] ∧
    (step s (Event.accessTokenResult ok params)).phase =
      Phase.terminal true := by
  subst hst
  have hok : ok = true := by
    have h := congrArg Prod.fst hr
    simpa [exoFlickrAuthResponse, HttpStatusType.isHTTPOk] using h.symm
  subst hok
  have hstep : step s (Event.accessTokenResult true params)
      = exoFlickrAuth.gotAccessToken s true params := by
    simp [step, hph]
  rw [hstep]
  unfold exoFlickrAuth.gotAccessToken
  refine ⟨?_, ?_, ?_, ?_, ?_, ?_, ?_⟩ <;> simp [hA, List.append_assoc]

/-- C7 witness at the concrete body from the spec example, with the decoded
full name "Jane Doe". -/
theorem C7_access_token_success_witness :
    sAcc.phase = Phase.awaitingAccessToken ∧
    sAcc.mAuthenticating = true ∧
    exoFlickrAuthResponse (HttpStatusType.httpCode 200)
        "oauth_token=T2&oauth_token_secret=S2&fullname=Jane+Doe&user_nsid=123&username=jane"
      = (true, [("oauth_token", "T2"), ("oauth_token_secret", "S2"),
          ("fullname", "Jane Doe"), ("user_nsid", "123"),
          ("username", "jane")]) ∧
    ((step sAcc (Event.accessTokenResult true
        [("oauth_token", "T2"), ("oauth_token_secret", "S2"),
         ("fullname", "Jane Doe"), ("user_nsid", "123"),
         ("username", "jane")])).store =
      { token := "T2", tokenSecret := "S2", fullName := "Jane Doe",
        nsid := "123", username := "jane" } ∧
    (step sAcc (Event.accessTokenResult true
        [("oauth_token", "T2"), ("oauth_token_secret", "S2"),
         ("fullname", "Jane Doe"), ("user_nsid", "123"),
         ("username", "jane")])).phase = Phase.terminal true ∧
    countCallbacks (step sAcc (Event.accessTokenResult true
        [("oauth_token", "T2"), ("oauth_token_secret", "S2"),
         ("fullname", "Jane Doe"), ("user_nsid", "123"),
         ("username", "jane")])).trace = countCallbacks sAcc.trace + 1) := by
  refine ⟨by decide, by decide, by decide, ?_⟩
  have h := C7_access_token_success sAcc (HttpStatusType.httpCode 200)
    "oauth_token=T2&oauth_token_secret=S2&fullname=Jane+Doe&user_nsid=123&username=jane"
    true
    [("oauth_token", "T2"), ("oauth_token_secret", "S2"),
     ("fullname", "Jane Doe"), ("user_nsid", "123"), ("username", "jane")]
    (by decide) (by decide) rfl (by decide)
  exact ⟨by decide, h.2.2.2.2.2.2, by decide⟩

/-- C8: on a failed access-token leg a failure notice is presented, the
attempt ends terminally failed, the callback is invoked as (false, payload)
with the parsed payload forwarded, and the store is not written on this
path. -/
theorem C8_access_token_failure (s : AuthState) (params : LLSD)
    (hph : s.phase = Phase.awaitingAccessToken)
    (hA : s.mAuthenticating = true) :
    (step s (Event.accessTokenResult false params)).trace = s.trace ++
      [Act.notify "ExodusFlickrVerificationFailed",
       Act.callbackInvoke false params, Act.clearFlight] ∧
    (step s (Event.accessTokenResult false params)).phase =
      Phase.terminal false ∧
    (step s (Event.accessTokenResult false params)).store = s.store ∧
    (step s (Event.accessTokenResult false params)).sAuthorisationInProgress
      = false := by
  have hstep : step s (Event.accessTokenResult false params)
      = exoFlickrAuth.gotAccessToken s false params := by
    simp [step, hph]
  rw [hstep]
  have hred : exoFlickrAuth.gotAccessToken s false params
      = exoFlickrAuth.deleteSelf
          ((s.emit (Act.notify "ExodusFlickrVerificationFailed")).emit
            (Act.callbackInvoke false params)) false := rfl
  rw [hred]
  refine ⟨?_, ?_, ?_, ?_⟩ <;> simp [hA, List.append_assoc]

/-- C8 witness at a concrete input. -/
theorem C8_access_token_failure_witness :
    sAcc.phase = Phase.awaitingAccessToken ∧
    sAcc.mAuthenticating = true ∧
    ((step sAcc (Event.accessTokenResult false
        [("oauth_problem", "token_rejected")])).trace = sAcc.trace ++
      [Act.notify "ExodusFlickrVerificationFailed",
       Act.callbackInvoke false [("oauth_problem", "token_rejected")],
       Act.clearFlight] ∧
    (step sAcc (Event.accessTokenResult false
        [("oauth_problem", "token_rejected")])).phase =
      Phase.terminal false ∧
    (step sAcc (Event.accessTokenResult false
        [("oauth_problem", "token_rejected")])).store = sAcc.store ∧
    (step sAcc (Event.accessTokenResult false
        [("oauth_problem",
          "token_rejected")])).sAuthorisationInProgress = false) :=
  ⟨by decide, by decide,
    C8_access_token_failure sAcc [("oauth_problem", "token_rejected")]
      (by decide) (by decide)⟩

/-- C9: round-trip reuse of persisted credentials: when the stored token
and secret are both non-empty and the validation probe answers with status
"ok", the attempt ends terminally successful, invoking the callback exactly
as (true, empty payload), with the store untouched and with the probe call
as the only HTTP request ever issued (none of the three handshake legs). -/
theorem C9_reuse_valid_credentials (st : Store) (resp : LLSD)
    (h1 : ¬ st.token = "") (h2 : ¬ st.tokenSecret = "")
    (h3 : LLSD.getString resp "stat" = "ok") :
    run st false [Event.probeResult true resp] =
      { store := st, sAuthorisationInProgress := false,
        mAuthenticating := true, phase := Phase.terminal true,
        trace := [Act.httpGet "flickr.test.login",
                  Act.callbackInvoke true [], Act.clearFlight] } := by
  have hcon : exoFlickrAuth.construct st false =
      { store := st, sAuthorisationInProgress := true,
        mAuthenticating := true, phase := Phase.validating,
        trace := [Act.httpGet "flickr.test.login"] } := by
    unfold exoFlickrAuth.construct exoFlickrAuth.checkAuthorisation
    simp [h1, h2, AuthState.emit]
  unfold run
  rw [List.foldl_cons, List.foldl_nil, hcon]
  simp [step, exoFlickrAuth.checkResult, h3, exoFlickrAuth.deleteSelf,
    exoFlickrAuth.destruct, AuthState.emit]

/-- C9 witness at a concrete seeded store. -/
theorem C9_reuse_valid_credentials_witness :
    (¬ storeSeeded.token = "") ∧ (¬ storeSeeded.tokenSecret = "") ∧
    LLSD.getString [("stat", "ok")] "stat" = "ok" ∧
    run storeSeeded false [Event.probeResult true [("stat", "ok")]] =
      { store := storeSeeded, sAuthorisationInProgress := false,
        mAuthenticating := true, phase := Phase.terminal true,
        trace := [Act.httpGet "flickr.test.login",
                  Act.callbackInvoke true [], Act.clearFlight] } :=
  ⟨by decide, by decide, by decide,
    C9_reuse_valid_credentials storeSeeded [("stat", "ok")]
      (by decide) (by decide) (by decide)⟩

/-- C10: declining the initial explanatory consent prompt (choosing any
option other than 0) on an attempt that started with missing credentials
ends the attempt terminally failed with callback (false, empty payload) and
with the consent prompt as the only user-visible effect — in particular no
HTTP request is ever issued by the attempt. -/
theorem C10_decline_consent (st : Store) (opt : Nat)
    (hcred : st.token = "" ∨ st.tokenSecret = "") (hopt : ¬ opt = 0) :
    run st false [Event.explanationChoice opt] =
      { store := st, sAuthorisationInProgress := false,
        mAuthenticating := true, phase := Phase.terminal false,
        trace := [Act.notify "ExodusFlickrVerificationExplanation",
                  Act.callbackInvoke false [], Act.clearFlight] } := by
  have hcon : exoFlickrAuth.construct st false =
      { store := st, sAuthorisationInProgress := true,
        mAuthenticating := true, phase := Phase.awaitingExplanation,
        trace := [Act.notify "ExodusFlickrVerificationExplanation"] } := by
    unfold exoFlickrAuth.construct exoFlickrAuth.beginAuthorisation
    rcases hcred with h | h <;> simp [h, AuthState.emit]
  unfold run
  rw [List.foldl_cons, List.foldl_nil, hcon]
  simp [step, exoFlickrAuth.explanationCallback, hopt,
    exoFlickrAuth.deleteSelf, exoFlickrAuth.destruct, AuthState.emit]

/-- C10 witness at a concrete input: option 1 declines the prompt. -/
theorem C10_decline_consent_witness :
    (storeEmpty.token = "" ∨ storeEmpty.tokenSecret = "") ∧ (¬ (1 : Nat) = 0) ∧
    run storeEmpty false [Event.explanationChoice 1] =
      { store := storeEmpty, sAuthorisationInProgress := false,
        mAuthenticating := true, phase := Phase.terminal false,
        trace := [Act.notify "ExodusFlickrVerificationExplanation",
                  Act.callbackInvoke false [], Act.clearFlight] } :=
  ⟨Or.inl (by decide), by decide,
    C10_decline_consent storeEmpty 1 (Or.inl (by decide)) (by decide)⟩
